import Mathlib

/-!
Verification of the TanStack Start template repository.

Embedded source:
- src/src/routes/api/demo.ts : the GET handler of the /api/demo route.
- src/vite.config.ts (second document, the index route file) : the server
  function getMessageFn, the root route loader, and the App component.
-/

namespace TanstackStart

/-- A JavaScript runtime error value (network failure, JSON parse failure). -/
structure JsError where
  message : String

/-- A JSON value, the payload type produced by JSON.parse and Response.json. -/
inductive Json where
  | null : Json
  | bool : Bool → Json
  | num : Int → Json
  | str : String → Json
  | arr : List Json → Json
  | obj : List (String × Json) → Json

/-- JavaScript property access on a parsed JSON value: looks up a key of an
object, returns none (undefined) when the key is missing or the value is not
an object. -/
def Json.getField (j : Json) (key : String) : Option Json :=
  match j with
  | Json.obj fields => (fields.find? (fun p => p.1 == key)).map (fun p => p.2)
  | _ => none

/-- The Fetch API Headers object: a list of name-value pairs. -/
structure Headers where
  entries : List (String × String)

/-- Case-insensitive equality of header names (ASCII folding). -/
def headerNameEq (a b : String) : Bool :=
  a.data.map Char.toLower == b.data.map Char.toLower

/-- Headers.get of the Fetch API: case-insensitive lookup, null (none) when
the header is absent. -/
def Headers.get (hs : Headers) (name : String) : Option String :=
  (hs.entries.find? (fun p => headerNameEq p.1 name)).map (fun p => p.2)

/-- An incoming HTTP request as seen by a route handler. -/
structure Request where
  url : String
  headers : Headers
  body : Option String

/-- An HTTP response with a JSON body. -/
structure Response where
  status : Nat
  body : Json

/-- Response.json of the Fetch API with no init argument: status 200 and the
given JSON body. -/
def Response.json (body : Json) : Response :=
  { status := 200, body := body }

/-- JavaScript template-literal conversion of a nullable string: the string
itself when present, the text "null" when the value is null. -/
def templateToString : Option String → String
  | some s => s
  | none => "null"

/-- The GET handler of the /api/demo route, from src/src/routes/api/demo.ts:
reads the user-agent header and returns a JSON message embedding it. -/
def demoHandlerGET (request : Request) : Response :=
  let agent := Headers.get request.headers "user-agent"
  Response.json (Json.obj
    [("message", Json.str ("Hello \"/api/demo\"! Agent: " ++ templateToString agent))])

/-- The message string the demo handler builds for a request. -/
def demoMessage (request : Request) : String :=
  "Hello \"/api/demo\"! Agent: " ++
    templateToString (Headers.get request.headers "user-agent")

/-- The result of a fetch call: the HTTP status and the outcome of calling
the .json() method on the response body. -/
structure FetchedResponse where
  status : Nat
  jsonBody : Except JsError Json

/-- The URL hardcoded in getMessageFn. -/
def demoUrl : String := "http://localhost:3000/api/demo"

/-- The body of the server function getMessageFn, instrumented with the list
of URLs it fetches.  The fetch environment maps a URL to the outcome of a
fetch of it: an error, or a response.  The handler awaits a single fetch of
the hardcoded URL, awaits response.json(), and returns the parsed data. -/
def getMessageFnRun (fetchEnv : String → Except JsError FetchedResponse) :
    Except JsError Json × List String :=
  let requested := [demoUrl]
  match fetchEnv demoUrl with
  | Except.error e => (Except.error e, requested)
  | Except.ok response =>
      match response.jsonBody with
      | Except.error e => (Except.error e, requested)
      | Except.ok data => (Except.ok data, requested)

/-- The value returned (or error thrown) by getMessageFn. -/
def getMessageFn (fetchEnv : String → Except JsError FetchedResponse) :
    Except JsError Json :=
  (getMessageFnRun fetchEnv).1

/-- The root route loader: awaits getMessageFn and returns its value. -/
def rootLoader (fetchEnv : String → Except JsError FetchedResponse) :
    Except JsError Json :=
  getMessageFn fetchEnv

/-- The root route loader with the instrumented fetch trace. -/
def rootLoaderRun (fetchEnv : String → Except JsError FetchedResponse) :
    Except JsError Json × List String :=
  getMessageFnRun fetchEnv

/-- The rendered output of the App component: a div with the given class
name whose text child is the destructured message property. -/
structure AppView where
  className : String
  text : Option Json

/-- The App component: destructures message from the loader data and renders
it inside a div. -/
def App (loaderData : Json) : AppView :=
  { className := "mx-auto flex p-4", text := Json.getField loaderData "message" }

/-- A full page load of the root route: run the loader, then render App on
the loaded data; a loader error propagates. -/
def pageLoad (fetchEnv : String → Except JsError FetchedResponse) :
    Except JsError AppView :=
  (rootLoader fetchEnv).map App

/-- A concrete request carrying a user-agent header. -/
def reqWithAgent : Request :=
  { url := "http://localhost:3000/api/demo"
    headers := { entries := [("user-agent", "TestAgent")] }
    body := none }

/-- A concrete request with no user-agent header. -/
def reqNoAgent : Request :=
  { url := "http://localhost:3000/api/demo"
    headers := { entries := [("accept", "application/json")] }
    body := none }

/-- A fetch environment answering every URL the same way. -/
def envFixed : String → Except JsError FetchedResponse :=
  fun _ => Except.ok { status := 200, jsonBody := Except.ok (Json.str "x") }

/-- A fetch environment answering only the demo URL. -/
def envOnlyDemo : String → Except JsError FetchedResponse :=
  fun u =>
    if u = "http://localhost:3000/api/demo" then
      Except.ok { status := 200, jsonBody := Except.ok (Json.str "x") }
    else
      Except.error { message := "unreachable host" }

/-- A fetch environment in which every fetch fails. -/
def envNetworkDown : String → Except JsError FetchedResponse :=
  fun _ => Except.error { message := "ECONNREFUSED" }

/-- A concrete request used to exercise a full page load. -/
def reqForLoad : Request :=
  { url := "http://localhost:3000/api/demo"
    headers := { entries := [("user-agent", "LoaderAgent")] }
    body := none }

/-- A fetch environment whose answer is the demo handler response for
reqForLoad. -/
def envServedByHandler : String → Except JsError FetchedResponse :=
  fun _ =>
    Except.ok { status := (demoHandlerGET reqForLoad).status
                jsonBody := Except.ok (demoHandlerGET reqForLoad).body }

/-- A concrete request whose user-agent value holds markup and quotes. -/
def reqOddAgent : Request :=
  { url := "http://localhost:3000/api/demo"
    headers := { entries := [("user-agent", "<script>\"quoted\" & raw</script>")] }
    body := none }

/-- Two concrete requests sharing a user-agent value but differing in URL,
body, other headers, and header-name casing. -/
def reqVariantA : Request :=
  { url := "http://localhost:3000/api/demo"
    headers := { entries := [("user-agent", "SameAgent"), ("accept", "text/html")] }
    body := none }

/-- Second of the two requests sharing a user-agent value. -/
def reqVariantB : Request :=
  { url := "http://localhost:3000/api/demo?q=1"
    headers := { entries := [("cookie", "a=b"), ("User-Agent", "SameAgent")] }
    body := some "ignored" }

/-- A fetch environment returning status 404 and a body with no message
field. -/
def envBadResponse : String → Except JsError FetchedResponse :=
  fun _ => Except.ok { status := 404, jsonBody := Except.ok (Json.obj []) }

theorem demoHandlerGET_body (r : Request) :
    (demoHandlerGET r).body = Json.obj [("message", Json.str (demoMessage r))] := rfl

theorem getMessageFnRun_trace (env : String → Except JsError FetchedResponse) :
    (getMessageFnRun env).2 = [demoUrl] := by
  cases henv : env demoUrl with
  | error e => simp [getMessageFnRun, henv]
  | ok response =>
      cases hj : response.jsonBody with
      | error e => simp [getMessageFnRun, henv, hj]
      | ok data => simp [getMessageFnRun, henv, hj]

/-- Claim C1: for every GET request to /api/demo whose user-agent header is
present with value x, the message field of the JSON body equals the string
Hello "/api/demo"! Agent: x, with the header value embedded verbatim. -/
theorem demo_message_echoes_user_agent (r : Request) (x : String)
    (h : Headers.get r.headers "user-agent" = some x) :
    Json.getField (demoHandlerGET r).body "message" =
      some (Json.str ("Hello \"/api/demo\"! Agent: " ++ x)) := by
  simp [demoHandlerGET, Response.json, Json.getField, h, templateToString]

theorem demo_message_echoes_user_agent_witness :
    Json.getField (demoHandlerGET reqWithAgent).body "message" =
      some (Json.str ("Hello \"/api/demo\"! Agent: " ++ "TestAgent")) :=
  demo_message_echoes_user_agent reqWithAgent "TestAgent" (by decide)

/-- Claim C2: when the user-agent header is absent the handler substitutes
null, and the message contains the literal substring Agent: null. -/
theorem demo_message_missing_agent_null (r : Request)
    (h : Headers.get r.headers "user-agent" = none) :
    ∃ a b : String,
      Json.getField (demoHandlerGET r).body "message" =
        some (Json.str (a ++ ("Agent: null" ++ b))) := by
  refine ⟨"Hello \"/api/demo\"! ", "", ?_⟩
  simp [demoHandlerGET, Response.json, Json.getField, h, templateToString]

theorem demo_message_missing_agent_null_witness :
    ∃ a b : String,
      Json.getField (demoHandlerGET reqNoAgent).body "message" =
        some (Json.str (a ++ ("Agent: null" ++ b))) :=
  demo_message_missing_agent_null reqNoAgent (by decide)

/-- Claim C3: every GET request to /api/demo gets status 200 and a body that
is exactly an object with a single string field named message. -/
theorem demo_status_200_single_field (r : Request) :
    (demoHandlerGET r).status = 200 ∧
    ∃ s : String, (demoHandlerGET r).body = Json.obj [("message", Json.str s)] :=
  ⟨rfl, ⟨demoMessage r, rfl⟩⟩

/-- Claim C4: getMessageFn always fetches exactly the hardcoded URL, and its
behaviour depends only on what a fetch of that URL yields: two fetch
environments agreeing at the hardcoded URL produce identical runs. -/
theorem getMessageFn_url_hardcoded
    (env1 env2 : String → Except JsError FetchedResponse)
    (h : env1 demoUrl = env2 demoUrl) :
    (∀ u, u ∈ (getMessageFnRun env1).2 → u = demoUrl) ∧
    getMessageFnRun env1 = getMessageFnRun env2 := by
  constructor
  · intro u hu
    rw [getMessageFnRun_trace] at hu
    simpa using hu
  · simp only [getMessageFnRun, h]

theorem getMessageFn_url_hardcoded_witness :
    (∀ u, u ∈ (getMessageFnRun envFixed).2 → u = demoUrl) ∧
    getMessageFnRun envFixed = getMessageFnRun envOnlyDemo :=
  getMessageFn_url_hardcoded envFixed envOnlyDemo (by simp [envFixed, envOnlyDemo, demoUrl])

/-- Claim C5: a fetch error and a JSON parse error each propagate unchanged
out of getMessageFn, with no retry, fallback or wrapping, and a successfully
parsed body is returned unmodified. -/
theorem getMessageFn_propagates (env : String → Except JsError FetchedResponse) :
    (∀ e, env demoUrl = Except.error e → getMessageFn env = Except.error e) ∧
    (∀ r e, env demoUrl = Except.ok r → r.jsonBody = Except.error e →
      getMessageFn env = Except.error e) ∧
    (∀ r d, env demoUrl = Except.ok r → r.jsonBody = Except.ok d →
      getMessageFn env = Except.ok d) := by
  refine ⟨?_, ?_, ?_⟩
  · intro e he
    simp [getMessageFn, getMessageFnRun, he]
  · intro r e hr he
    simp [getMessageFn, getMessageFnRun, hr, he]
  · intro r d hr hd
    simp [getMessageFn, getMessageFnRun, hr, hd]

theorem getMessageFn_propagates_witness :
    getMessageFn envNetworkDown =
      Except.error { message := "ECONNREFUSED" } :=
  (getMessageFn_propagates envNetworkDown).1 { message := "ECONNREFUSED" } rfl

/-- Claim C6: on a successful page load where the fetch of the hardcoded URL
is served by the demo handler, the text rendered by the App component is
exactly the message field built by the handler, passed unmodified through
the server function and the loader. -/
theorem page_load_renders_loader_message
    (env : String → Except JsError FetchedResponse) (req : Request)
    (h : env demoUrl =
      Except.ok { status := (demoHandlerGET req).status
                  jsonBody := Except.ok (demoHandlerGET req).body }) :
    rootLoader env = Except.ok (demoHandlerGET req).body ∧
    pageLoad env =
      Except.ok { className := "mx-auto flex p-4"
                  text := some (Json.str (demoMessage req)) } := by
  have hload : rootLoader env = Except.ok (demoHandlerGET req).body := by
    simp [rootLoader, getMessageFn, getMessageFnRun, h]
  refine ⟨hload, ?_⟩
  rw [pageLoad, hload, demoHandlerGET_body]
  rfl

theorem page_load_renders_loader_message_witness :
    rootLoader envServedByHandler = Except.ok (demoHandlerGET reqForLoad).body ∧
    pageLoad envServedByHandler =
      Except.ok { className := "mx-auto flex p-4"
                  text := some (Json.str (demoMessage reqForLoad)) } :=
  page_load_renders_loader_message envServedByHandler reqForLoad rfl

/-- Claim C7: each run of the root route loader issues exactly one outbound
HTTP request, the single fetch inside getMessageFn. -/
theorem loader_single_request (env : String → Except JsError FetchedResponse) :
    (rootLoaderRun env).2 = [demoUrl] ∧ (rootLoaderRun env).2.length = 1 := by
  have htrace : (rootLoaderRun env).2 = [demoUrl] := getMessageFnRun_trace env
  exact ⟨htrace, by rw [htrace]; rfl⟩

/-- Claim C8: the demo handler is deterministic in the user-agent header:
two requests with the same user-agent header value (including both absent)
get identical responses, whatever their URL, body or other headers. -/
theorem demo_handler_depends_only_on_user_agent (r1 r2 : Request)
    (h : Headers.get r1.headers "user-agent" = Headers.get r2.headers "user-agent") :
    demoHandlerGET r1 = demoHandlerGET r2 := by
  simp [demoHandlerGET, Response.json, h]

theorem demo_handler_depends_only_on_user_agent_witness :
    demoHandlerGET reqVariantA = demoHandlerGET reqVariantB :=
  demo_handler_depends_only_on_user_agent reqVariantA reqVariantB (by decide)

/-- Claim C9: every demo response message is the fixed greeting followed by
a remainder, and when the user-agent header is present the remainder is the
header value verbatim, with no escaping or truncation. -/
theorem demo_message_fixed_greeting_then_agent (r : Request) :
    ∃ rest : String,
      Json.getField (demoHandlerGET r).body "message" =
        some (Json.str ("Hello \"/api/demo\"! Agent: " ++ rest)) ∧
      (∀ x, Headers.get r.headers "user-agent" = some x → rest = x) := by
  refine ⟨templateToString (Headers.get r.headers "user-agent"), ?_, ?_⟩
  · simp [demoHandlerGET, Response.json, Json.getField]
  · intro x hx
    rw [hx]
    rfl

theorem demo_message_fixed_greeting_then_agent_witness :
    ∃ rest : String,
      Json.getField (demoHandlerGET reqOddAgent).body "message" =
        some (Json.str ("Hello \"/api/demo\"! Agent: " ++ rest)) ∧
      rest = "<script>\"quoted\" & raw</script>" := by
  obtain ⟨rest, h1, h2⟩ := demo_message_fixed_greeting_then_agent reqOddAgent
  exact ⟨rest, h1, h2 "<script>\"quoted\" & raw</script>" (by decide)⟩

/-- Claim C10: getMessageFn validates nothing at runtime: whatever the HTTP
status and whatever the shape of the parsed JSON body, a successful fetch
and parse is returned as a success value as-is. -/
theorem getMessageFn_no_validation (env : String → Except JsError FetchedResponse)
    (r : FetchedResponse) (d : Json)
    (h1 : env demoUrl = Except.ok r) (h2 : r.jsonBody = Except.ok d) :
    getMessageFn env = Except.ok d := by
  simp [getMessageFn, getMessageFnRun, h1, h2]

theorem getMessageFn_no_validation_witness :
    getMessageFn envBadResponse = Except.ok (Json.obj []) :=
  getMessageFn_no_validation envBadResponse
    { status := 404, jsonBody := Except.ok (Json.obj []) } (Json.obj []) rfl rfl

end TanstackStart
